import Mathlib

/-!
Shallow embedding of the multi-session chat client in
`frontend/src/App.tsx` (the chat session store, the dispatch controller
for `handleSend`, and the attachment builder `onPickFile`), together with
theorems settling the specification claims about it.

React `useState` cells become fields of an explicit `AppState`; each event
handler becomes a pure function from state (plus its event payload) to
state.  The asynchronous `handleSend` is split at its single suspension
point (the `fetch`): `handleSend` is the synchronous prefix up to and
including issuing the request, returning the successor state together
with the snapshot and request body when a request is issued, and
`handleSendResolve` is the continuation that runs when the backend call
settles, taking the snapshot and the call's outcome.
-/

namespace OpenRouterApp

/-- Message role: the `role: "user" | "bot"` union in `Msg`. -/
inductive Role where
  | user
  | bot
deriving DecidableEq, Repr

/-- The `Msg` record: a transcript entry.  `modelLabel` is set only on bot
messages; `imageDataUrl`/`imageAlt` only on user messages carrying an
attachment preview. -/
structure Msg where
  role : Role
  content : String
  modelLabel : Option String := none
  imageDataUrl : Option String := none
  imageAlt : Option String := none
deriving DecidableEq, Repr

/-- The `Chat` record: one session. -/
structure Chat where
  id : String
  index : Nat
  title : String
  modelKey : String
  modelLabel : String
  messages : List Msg
deriving DecidableEq, Repr

/-- The `ImageAttachment` record built by `onPickFile`. -/
structure ImageAttachment where
  name : String
  mimeType : String
  dataBase64 : String
  dataUrl : String
  sizeBytes : Nat
deriving DecidableEq, Repr

/-- One entry of the static `MODELS` catalog. -/
structure ModelOption where
  key : String
  label : String
deriving DecidableEq, Repr

/-- The static model catalog `MODELS`. -/
def MODELS : List ModelOption :=
  [ { key := "trinity_large_preview_free", label := "Trinity Large Preview (free)" },
    { key := "solar_pro_3_free", label := "Solar Pro 3" },
    { key := "molmo_2_8b_free", label := "Molmo 2 8B (free, vision)" } ]

/-- The `MODEL_SUPPORTS_IMAGE` record: only the Molmo key maps to `true`;
lookup of any other key yields `undefined`, i.e. `false`. -/
def MODEL_SUPPORTS_IMAGE (key : String) : Bool :=
  key == "molmo_2_8b_free"

/-- The `MAX_IMAGE_BYTES` constant: 5 * 1024 * 1024. -/
def MAX_IMAGE_BYTES : Nat := 5 * 1024 * 1024

/-- The `getModelLabel` helper: label of the catalog entry with the given
key, or the fallback `"Model"`. -/
def getModelLabel (key : String) : String :=
  ((MODELS.find? fun m => m.key == key).map ModelOption.label).getD "Model"

/-- The payload a `fetch` would read off a user-picked `File`: its `name`,
declared MIME `type`, byte `size`, and the data URL a successful
`FileReader.readAsDataURL` produces from its bytes. -/
structure PickedFile where
  name : String
  type : String
  size : Nat
  dataUrl : String
deriving DecidableEq, Repr

/-- Kernel-executable model of `String.prototype.trim`: drop whitespace
characters from both ends. -/
def jsTrim (s : String) : String :=
  String.mk (((s.data.dropWhile Char.isWhitespace).reverse.dropWhile
    Char.isWhitespace).reverse)

/-- Kernel-executable model of `String.prototype.startsWith`. -/
def strStartsWith (s p : String) : Bool :=
  p.data.isPrefixOf s.data

/-- The `dataUrlToBase64` helper: `indexOf(",")` then `slice(comma + 1)` —
everything after the first comma, or the whole string when there is no
comma. -/
def dataUrlToBase64 (dataUrl : String) : String :=
  if dataUrl.data.contains ',' then
    String.mk ((dataUrl.data.dropWhile fun c => c != ',').drop 1)
  else dataUrl

/-- The `image` field of the outbound request body. -/
structure ImagePayload where
  mime_type : String
  data_base64 : String
deriving DecidableEq, Repr

/-- The JSON body POSTed to the backend chat endpoint:
`{ message, model, image? }`. -/
structure RequestBody where
  message : String
  model : String
  image : Option ImagePayload := none
deriving DecidableEq, Repr

/-- The snapshot `handleSend` takes of the active chat just before the
optimistic append (`chatIdAtSend` / `modelKeyAtSend` / `modelLabelAtSend`
/ `imageAtSend`). -/
structure SendSnapshot where
  chatIdAtSend : String
  modelKeyAtSend : String
  modelLabelAtSend : String
  imageAtSend : Option ImageAttachment
deriving DecidableEq, Repr

/-- All `useState` cells of the `App` component. -/
structure AppState where
  input : String
  isSending : Bool
  error : Option String
  selectedModelKey : String
  imageAttachment : Option ImageAttachment
  chats : List Chat
  activeChatId : Option String
deriving DecidableEq, Repr

/-- Error string shown when the 5-chat cap is hit. -/
def limitMsg : String := "You can create up to 5 chats."

/-- Error string shown when sending with no active chat. -/
def noActiveMsg : String := "Create a chat first (+) and select a model."

/-- Error string shown when sending an image on a non-vision model. -/
def capabilityMsg : String :=
  "Image input is only supported with Molmo. Create a Molmo chat to send images."

/-- Error string shown when the picked file is not an image. -/
def notImageMsg : String := "Please attach an image file (png/jpg/webp)."

/-- Error string shown when the picked file exceeds the size ceiling. -/
def tooLargeMsg : String := "Image is too large. Please use an image under 5MB."

/-- The `activeChat` memo: the chat whose id equals `activeChatId`, if
any. -/
def activeChat (s : AppState) : Option Chat :=
  match s.activeChatId with
  | none => none
  | some cid => s.chats.find? fun c => c.id == cid

/-- The `activeChatSupportsImages` derived flag. -/
def activeChatSupportsImages (s : AppState) : Bool :=
  match activeChat s with
  | none => false
  | some c => MODEL_SUPPORTS_IMAGE c.modelKey

/-- The `createChat` handler.  `makeId` draws randomness, so the fresh id
is a parameter. -/
def createChat (s : AppState) (newId : String) : AppState :=
  if 5 ≤ s.chats.length then
    { s with error := some limitMsg }
  else
    let nextIndex := s.chats.length + 1
    let newChat : Chat :=
      { id := newId
        index := nextIndex
        title := "Chat " ++ toString nextIndex
        modelKey := s.selectedModelKey
        modelLabel := getModelLabel s.selectedModelKey
        messages := [] }
    { s with
      error := none
      chats := s.chats ++ [newChat]
      activeChatId := some newId
      input := ""
      imageAttachment := none }

/-- The tab-button `onClick` handler: select a session. -/
def selectChat (s : AppState) (cid : String) : AppState :=
  { s with activeChatId := some cid, error := none, imageAttachment := none }

/-- The textarea `onChange` handler. -/
def setInput (s : AppState) (t : String) : AppState :=
  { s with input := t }

/-- The model dropdown `onChange` handler. -/
def setSelectedModel (s : AppState) (k : String) : AppState :=
  { s with selectedModelKey := k }

/-- The `removeAttachment` handler. -/
def removeAttachment (s : AppState) : AppState :=
  { s with imageAttachment := none }

/-- The `onPickFile` handler, at the point where the file read (if
reached) has succeeded; `none` is the no-file-selected event. -/
def onPickFile (s : AppState) (file : Option PickedFile) : AppState :=
  match file with
  | none => { s with error := none }
  | some f =>
    if ¬ (strStartsWith f.type "image/") then
      { s with error := some notImageMsg }
    else if MAX_IMAGE_BYTES < f.size then
      { s with error := some tooLargeMsg }
    else
      { s with
        error := none
        imageAttachment := some
          { name := f.name
            mimeType := f.type
            dataBase64 := dataUrlToBase64 f.dataUrl
            dataUrl := f.dataUrl
            sizeBytes := f.size } }

/-- Append a message to every chat in the list whose id is `cid`, leaving
all other chats untouched (the `setChats(prev => prev.map(...))` pattern
used for both the optimistic user append and the bot reply append). -/
def appendMsgTo (chats : List Chat) (cid : String) (m : Msg) : List Chat :=
  chats.map fun c =>
    if c.id = cid then { c with messages := c.messages ++ [m] } else c

/-- The synchronous prefix of `handleSend`, up to and including issuing
the `fetch`.  Returns the successor state, paired with the snapshot and
the request body when the preconditions pass and a request is issued, and
`none` when the send was a no-op or stopped at a precondition error. -/
def handleSend (s : AppState) : AppState × Option (SendSnapshot × RequestBody) :=
  let text := jsTrim s.input
  if text == "" || s.isSending then (s, none)
  else
    match activeChat s with
    | none =>
      ({ s with error := some noActiveMsg }, none)
    | some chat =>
      if s.imageAttachment.isSome && ! MODEL_SUPPORTS_IMAGE chat.modelKey then
        ({ s with error := some capabilityMsg }, none)
      else
        let snap : SendSnapshot :=
          { chatIdAtSend := chat.id
            modelKeyAtSend := chat.modelKey
            modelLabelAtSend := chat.modelLabel
            imageAtSend := s.imageAttachment }
        let userMsg : Msg :=
          { role := .user
            content := text
            imageDataUrl := s.imageAttachment.map ImageAttachment.dataUrl
            imageAlt := s.imageAttachment.map ImageAttachment.name }
        let body : RequestBody :=
          { message := text
            model := chat.modelKey
            image := s.imageAttachment.map fun a =>
              { mime_type := a.mimeType, data_base64 := a.dataBase64 } }
        ({ s with
            error := none
            input := ""
            imageAttachment := none
            chats := appendMsgTo s.chats chat.id userMsg
            isSending := true },
         some (snap, body))

/-- The continuation of `handleSend` once the backend call settles:
`Except.ok reply` is a 2xx response whose JSON parsed to `{ reply }`; an
`Except.error msg` collapses every failure (non-ok status, network
failure, malformed body) into the message the `catch` block surfaces.
The `finally` clears `isSending` on both branches. -/
def handleSendResolve (s : AppState) (snap : SendSnapshot)
    (result : Except String String) : AppState :=
  match result with
  | .ok reply =>
    { s with
      chats := appendMsgTo s.chats snap.chatIdAtSend
        { role := .bot, content := reply, modelLabel := some snap.modelLabelAtSend }
      isSending := false }
  | .error msg => { s with error := some msg, isSending := false }

/-- Disabled predicate of the create-chat button:
`isSending || chats.length >= 5`. -/
def createChatDisabled (s : AppState) : Bool :=
  s.isSending || decide (5 ≤ s.chats.length)

/-- Disabled predicate of the model dropdown: `isSending`. -/
def modelSelectDisabled (s : AppState) : Bool :=
  s.isSending

/-- Disabled predicate of a session tab: `isSending && isActive`. -/
def tabDisabled (s : AppState) (c : Chat) : Bool :=
  s.isSending && (s.activeChatId == some c.id)

/-- Disabled predicate of the attach (file-picker) button:
`isSending || !activeChat`. -/
def attachDisabled (s : AppState) : Bool :=
  s.isSending || (activeChat s).isNone

/-- Disabled predicate of the composer textarea: `isSending || !activeChat`. -/
def textareaDisabled (s : AppState) : Bool :=
  s.isSending || (activeChat s).isNone

/-- Disabled predicate of the send button (`sendDisabled`). -/
def sendBtnDisabled (s : AppState) : Bool :=
  s.isSending || (activeChat s).isNone || (jsTrim s.input == "")
    || (s.imageAttachment.isSome && ! activeChatSupportsImages s)

/-- Every state-mutating event the UI can feed the store, with its
payload.  `resolveOk` / `resolveErr` are the two ways an outstanding
backend call can settle against its snapshot. -/
inductive Action where
  | create (newId : String)
  | select (cid : String)
  | typeText (t : String)
  | chooseModel (k : String)
  | pickFile (f : Option PickedFile)
  | removeAttach
  | send
  | resolveOk (snap : SendSnapshot) (reply : String)
  | resolveErr (snap : SendSnapshot) (msg : String)
deriving DecidableEq, Repr

/-- Small-step interpretation of an `Action` on the app state. -/
def step (s : AppState) : Action → AppState
  | .create newId => createChat s newId
  | .select cid => selectChat s cid
  | .typeText t => setInput s t
  | .chooseModel k => setSelectedModel s k
  | .pickFile f => onPickFile s f
  | .removeAttach => removeAttachment s
  | .send => (handleSend s).1
  | .resolveOk snap reply => handleSendResolve s snap (.ok reply)
  | .resolveErr snap msg => handleSendResolve s snap (.error msg)

/-- Per-chat preservation: identity fields are untouched and the message
log of the earlier chat is a prefix of the later one (append-only). -/
def chatPreserved (c d : Chat) : Prop :=
  d.id = c.id ∧ d.index = c.index ∧ d.title = c.title ∧
    d.modelKey = c.modelKey ∧ d.modelLabel = c.modelLabel ∧
    c.messages <+: d.messages

/-- Store preservation: no chat is removed, and every pre-existing chat
position is preserved in the sense of `chatPreserved`. -/
def storePreserved (l d : List Chat) : Prop :=
  l.length ≤ d.length ∧
    ∀ i, ∀ hi : i < l.length, ∀ hd : i < d.length,
      chatPreserved (l.get ⟨i, hi⟩) (d.get ⟨i, hd⟩)

/-- Total number of messages across all sessions. -/
def totalMsgs (l : List Chat) : Nat :=
  (l.map fun c => c.messages.length).sum

/-- Fixture: an empty fresh chat with a given ordinal and id, bound to the
Solar model. -/
def mkChat (n : Nat) (cid : String) : Chat :=
  { id := cid
    index := n
    title := "Chat " ++ toString n
    modelKey := "solar_pro_3_free"
    modelLabel := "Solar Pro 3"
    messages := [] }

/-- Fixture: a chat bound to the vision-capable Molmo model. -/
def chatMolmo : Chat :=
  { id := "b2"
    index := 2
    title := "Chat 2"
    modelKey := "molmo_2_8b_free"
    modelLabel := "Molmo 2 8B (free, vision)"
    messages := [] }

/-- Fixture: the initial state of the component, before any chat exists. -/
def baseState : AppState :=
  { input := ""
    isSending := false
    error := none
    selectedModelKey := "molmo_2_8b_free"
    imageAttachment := none
    chats := []
    activeChatId := none }

/-- Fixture: two chats, the Molmo one active, text typed with surrounding
whitespace, no send outstanding. -/
def twoChatState : AppState :=
  { baseState with
    chats := [mkChat 1 "a1", chatMolmo]
    activeChatId := some "b2"
    input := "  hi  " }

/-- Fixture: a send is outstanding on the active Molmo chat. -/
def sendingState : AppState :=
  { twoChatState with isSending := true, input := "" }

/-- Fixture: the store at its 5-session cap. -/
def fullState : AppState :=
  { baseState with
    chats := [mkChat 1 "a1", mkChat 2 "a2", mkChat 3 "a3", mkChat 4 "a4", mkChat 5 "a5"]
    activeChatId := some "a5" }

/-- Fixture: the snapshot `handleSend` takes in `twoChatState`. -/
def snapEx : SendSnapshot :=
  { chatIdAtSend := "b2"
    modelKeyAtSend := "molmo_2_8b_free"
    modelLabelAtSend := "Molmo 2 8B (free, vision)"
    imageAtSend := none }

/-- Fixture: the request body `handleSend` issues in `twoChatState`. -/
def reqEx : RequestBody :=
  { message := "hi", model := "molmo_2_8b_free", image := none }

/-- Fixture: a picked file whose declared MIME type is not an image. -/
def fTxt : PickedFile :=
  { name := "notes.txt", type := "text/plain", size := 10, dataUrl := "x" }

theorem chatPreserved_refl (c : Chat) : chatPreserved c c :=
  ⟨rfl, rfl, rfl, rfl, rfl, List.prefix_refl _⟩

theorem storePreserved_refl (l : List Chat) : storePreserved l l :=
  ⟨le_refl _, fun _ _ _ => chatPreserved_refl _⟩

theorem storePreserved_append (l t : List Chat) : storePreserved l (l ++ t) := by
  refine ⟨by simp, fun i hi hd => ?_⟩
  simp only [List.get_eq_getElem, List.getElem_append_left hi]
  exact chatPreserved_refl _

theorem appendMsgTo_length (l : List Chat) (cid : String) (m : Msg) :
    (appendMsgTo l cid m).length = l.length := by
  simp [appendMsgTo]

theorem storePreserved_appendMsgTo (l : List Chat) (cid : String) (m : Msg) :
    storePreserved l (appendMsgTo l cid m) := by
  refine ⟨by simp [appendMsgTo], fun i hi hd => ?_⟩
  simp only [appendMsgTo, List.get_eq_getElem, List.getElem_map]
  split
  · exact ⟨rfl, rfl, rfl, rfl, rfl, List.prefix_append _ _⟩
  · exact chatPreserved_refl _

theorem appendMsgTo_of_not_mem (l : List Chat) (cid : String) (m : Msg)
    (h : ∀ c ∈ l, c.id ≠ cid) : appendMsgTo l cid m = l := by
  induction l with
  | nil => rfl
  | cons c cs ih =>
    have hc : c.id ≠ cid := h c (List.mem_cons_self _ _)
    have hcs : ∀ x ∈ cs, x.id ≠ cid := fun x hx => h x (List.mem_cons_of_mem _ hx)
    simp only [appendMsgTo, List.map_cons, if_neg hc]
    exact congrArg (c :: ·) (ih hcs)

theorem appendMsgTo_cons (c : Chat) (cs : List Chat) (cid : String) (m : Msg) :
    appendMsgTo (c :: cs) cid m =
      (if c.id = cid then { c with messages := c.messages ++ [m] } else c) ::
        appendMsgTo cs cid m := rfl

theorem totalMsgs_cons (c : Chat) (cs : List Chat) :
    totalMsgs (c :: cs) = c.messages.length + totalMsgs cs := by
  simp [totalMsgs]

theorem totalMsgs_appendMsgTo (l : List Chat) (cid : String) (m : Msg) :
    totalMsgs (appendMsgTo l cid m) =
      totalMsgs l + l.countP (fun c => c.id == cid) := by
  induction l with
  | nil => rfl
  | cons c cs ih =>
    rw [appendMsgTo_cons, totalMsgs_cons, totalMsgs_cons, ih, List.countP_cons]
    by_cases hc : c.id = cid
    · rw [if_pos hc]
      have hb : (c.id == cid) = true := by simp [hc]
      simp only [hb, if_true, List.length_append, List.length_cons, List.length_nil]
      omega
    · rw [if_neg hc]
      have hb : (c.id == cid) = false := by simp [hc]
      simp only [hb, Bool.false_eq_true, if_false]
      omega

theorem handleSend_eq_silent (s : AppState) (h : jsTrim s.input = "" ∨ s.isSending = true) :
    handleSend s = (s, none) := by
  unfold handleSend
  have hb : (jsTrim s.input == "" || s.isSending) = true := by
    rcases h with h | h <;> simp [h]
  rw [if_pos hb]

theorem handleSend_eq_noActive (s : AppState) (h1 : jsTrim s.input ≠ "")
    (h2 : s.isSending = false) (h3 : activeChat s = none) :
    handleSend s = ({ s with error := some noActiveMsg }, none) := by
  unfold handleSend
  have hb : (jsTrim s.input == "" || s.isSending) = false := by simp [h1, h2]
  simp only [hb, Bool.false_eq_true, if_false, h3]

theorem handleSend_eq_capability (s : AppState) (chat : Chat) (h1 : jsTrim s.input ≠ "")
    (h2 : s.isSending = false) (h3 : activeChat s = some chat)
    (h4 : s.imageAttachment.isSome = true) (h5 : MODEL_SUPPORTS_IMAGE chat.modelKey = false) :
    handleSend s = ({ s with error := some capabilityMsg }, none) := by
  unfold handleSend
  have hb : (jsTrim s.input == "" || s.isSending) = false := by simp [h1, h2]
  have hc : (s.imageAttachment.isSome && ! MODEL_SUPPORTS_IMAGE chat.modelKey) = true := by
    simp [h4, h5]
  simp only [hb, Bool.false_eq_true, if_false, h3, hc, if_true]

theorem handleSend_eq_issue (s : AppState) (chat : Chat) (h1 : jsTrim s.input ≠ "")
    (h2 : s.isSending = false) (h3 : activeChat s = some chat)
    (h4 : s.imageAttachment.isSome = false ∨ MODEL_SUPPORTS_IMAGE chat.modelKey = true) :
    handleSend s =
      ({ s with
          error := none
          input := ""
          imageAttachment := none
          chats := appendMsgTo s.chats chat.id
            { role := .user
              content := jsTrim s.input
              imageDataUrl := s.imageAttachment.map ImageAttachment.dataUrl
              imageAlt := s.imageAttachment.map ImageAttachment.name }
          isSending := true },
       some ({ chatIdAtSend := chat.id, modelKeyAtSend := chat.modelKey,
               modelLabelAtSend := chat.modelLabel, imageAtSend := s.imageAttachment },
             { message := jsTrim s.input, model := chat.modelKey,
               image := s.imageAttachment.map fun a =>
                 { mime_type := a.mimeType, data_base64 := a.dataBase64 } })) := by
  unfold handleSend
  have hb : (jsTrim s.input == "" || s.isSending) = false := by simp [h1, h2]
  simp only [hb, Bool.false_eq_true, if_false, h3]
  have hc : (s.imageAttachment.isSome && ! MODEL_SUPPORTS_IMAGE chat.modelKey) = false := by
    rcases h4 with h | h <;> simp [h]
  rw [hc]
  simp only [Bool.false_eq_true, if_false]

theorem handleSend_issued (s : AppState) (snap : SendSnapshot) (req : RequestBody)
    (h : (handleSend s).2 = some (snap, req)) :
    ∃ chat, activeChat s = some chat ∧
      jsTrim s.input ≠ "" ∧ s.isSending = false ∧
      snap = { chatIdAtSend := chat.id, modelKeyAtSend := chat.modelKey,
               modelLabelAtSend := chat.modelLabel, imageAtSend := s.imageAttachment } ∧
      req = { message := jsTrim s.input, model := chat.modelKey,
              image := s.imageAttachment.map fun a =>
                { mime_type := a.mimeType, data_base64 := a.dataBase64 } } ∧
      (handleSend s).1 =
        { s with
          error := none
          input := ""
          imageAttachment := none
          chats := appendMsgTo s.chats chat.id
            { role := .user
              content := jsTrim s.input
              imageDataUrl := s.imageAttachment.map ImageAttachment.dataUrl
              imageAlt := s.imageAttachment.map ImageAttachment.name }
          isSending := true } := by
  by_cases h1 : jsTrim s.input = ""
  · rw [handleSend_eq_silent s (Or.inl h1)] at h
    exact absurd h (by simp)
  by_cases h2 : s.isSending = true
  · rw [handleSend_eq_silent s (Or.inr h2)] at h
    exact absurd h (by simp)
  have h2f : s.isSending = false := Bool.not_eq_true _ |>.mp h2
  cases h3 : activeChat s with
  | none =>
    rw [handleSend_eq_noActive s h1 h2f h3] at h
    exact absurd h (by simp)
  | some chat =>
    by_cases h4 : s.imageAttachment.isSome = true ∧ MODEL_SUPPORTS_IMAGE chat.modelKey = false
    · rw [handleSend_eq_capability s chat h1 h2f h3 h4.1 h4.2] at h
      exact absurd h (by simp)
    · have h4o : s.imageAttachment.isSome = false ∨ MODEL_SUPPORTS_IMAGE chat.modelKey = true := by
        rcases Bool.eq_false_or_eq_true s.imageAttachment.isSome with hx | hx
        · rcases Bool.eq_false_or_eq_true (MODEL_SUPPORTS_IMAGE chat.modelKey) with hy | hy
          · exact Or.inr hy
          · exact absurd ⟨hx, hy⟩ h4
        · exact Or.inl hx
      rw [handleSend_eq_issue s chat h1 h2f h3 h4o] at h
      simp only [Option.some_inj, Prod.mk.injEq] at h
      refine ⟨chat, rfl, h1, h2f, h.1.symm, h.2.symm, ?_⟩
      rw [handleSend_eq_issue s chat h1 h2f h3 h4o]

theorem handleSend_noop (s : AppState) (h : (handleSend s).2 = none) :
    (handleSend s).1.chats = s.chats ∧
    (handleSend s).1.imageAttachment = s.imageAttachment ∧
    (handleSend s).1.isSending = s.isSending ∧
    (handleSend s).1.input = s.input := by
  by_cases h1 : jsTrim s.input = ""
  · rw [handleSend_eq_silent s (Or.inl h1)]
    exact ⟨rfl, rfl, rfl, rfl⟩
  by_cases h2 : s.isSending = true
  · rw [handleSend_eq_silent s (Or.inr h2)]
    exact ⟨rfl, rfl, rfl, rfl⟩
  have h2f : s.isSending = false := Bool.not_eq_true _ |>.mp h2
  cases h3 : activeChat s with
  | none =>
    rw [handleSend_eq_noActive s h1 h2f h3]
    exact ⟨rfl, rfl, rfl, rfl⟩
  | some chat =>
    by_cases h4 : s.imageAttachment.isSome = true ∧ MODEL_SUPPORTS_IMAGE chat.modelKey = false
    · rw [handleSend_eq_capability s chat h1 h2f h3 h4.1 h4.2]
      exact ⟨rfl, rfl, rfl, rfl⟩
    · have h4o : s.imageAttachment.isSome = false ∨ MODEL_SUPPORTS_IMAGE chat.modelKey = true := by
        rcases Bool.eq_false_or_eq_true s.imageAttachment.isSome with hx | hx
        · rcases Bool.eq_false_or_eq_true (MODEL_SUPPORTS_IMAGE chat.modelKey) with hy | hy
          · exact Or.inr hy
          · exact absurd ⟨hx, hy⟩ h4
        · exact Or.inl hx
      rw [handleSend_eq_issue s chat h1 h2f h3 h4o] at h
      exact absurd h (by simp)

theorem onPickFile_chats (s : AppState) (f : Option PickedFile) :
    (onPickFile s f).chats = s.chats := by
  rcases f with _ | pf
  · rfl
  · by_cases h1 : strStartsWith pf.type "image/"
    · by_cases h2 : MAX_IMAGE_BYTES < pf.size
      · simp [onPickFile, h1, h2]
      · simp [onPickFile, h1, h2]
    · simp [onPickFile, h1]

theorem appendMsgTo_get (l : List Chat) (cid : String) (m : Msg) (i : Nat)
    (hi : i < l.length) (hd : i < (appendMsgTo l cid m).length) :
    (appendMsgTo l cid m).get ⟨i, hd⟩ =
      if (l.get ⟨i, hi⟩).id = cid then
        { l.get ⟨i, hi⟩ with messages := (l.get ⟨i, hi⟩).messages ++ [m] }
      else l.get ⟨i, hi⟩ := by
  simp only [appendMsgTo, List.get_eq_getElem, List.getElem_map]

/-- C1: when the backend call of a send succeeds, exactly one bot message
`{text: reply, modelLabel: snapshotted label}` is appended to the session
whose id was snapshotted at send time, whatever state the store has
reached by reply time (in particular whichever session is then active):
the store keeps its length, every session with a different id is
untouched, the session with the snapshotted id gets exactly the bot
message appended at the end, the total message count grows by the number
of sessions bearing the snapshotted id (one, ids being unique), and if no
session bears the snapshotted id the delivery is a no-op on the store
rather than a crash. -/
theorem c1_success_reply_routed_by_snapshot_id (s : AppState) (snap : SendSnapshot)
    (reply : String) :
    (handleSendResolve s snap (Except.ok reply)).chats.length = s.chats.length ∧
    (∀ i, ∀ hi : i < s.chats.length,
      ∀ hd : i < (handleSendResolve s snap (Except.ok reply)).chats.length,
      ((s.chats.get ⟨i, hi⟩).id ≠ snap.chatIdAtSend →
        (handleSendResolve s snap (Except.ok reply)).chats.get ⟨i, hd⟩ =
          s.chats.get ⟨i, hi⟩) ∧
      ((s.chats.get ⟨i, hi⟩).id = snap.chatIdAtSend →
        (handleSendResolve s snap (Except.ok reply)).chats.get ⟨i, hd⟩ =
          { s.chats.get ⟨i, hi⟩ with
            messages := (s.chats.get ⟨i, hi⟩).messages ++
              [{ role := .bot, content := reply,
                 modelLabel := some snap.modelLabelAtSend }] })) ∧
    totalMsgs (handleSendResolve s snap (Except.ok reply)).chats =
      totalMsgs s.chats + s.chats.countP (fun c => c.id == snap.chatIdAtSend) ∧
    ((∀ c ∈ s.chats, c.id ≠ snap.chatIdAtSend) →
      (handleSendResolve s snap (Except.ok reply)).chats = s.chats) := by
  have hchats : (handleSendResolve s snap (Except.ok reply)).chats =
      appendMsgTo s.chats snap.chatIdAtSend
        { role := .bot, content := reply, modelLabel := some snap.modelLabelAtSend } := rfl
  refine ⟨?_, ?_, ?_, ?_⟩
  · rw [hchats, appendMsgTo_length]
  · intro i hi hd
    have hget := appendMsgTo_get s.chats snap.chatIdAtSend
      { role := .bot, content := reply, modelLabel := some snap.modelLabelAtSend }
      i hi (by rw [appendMsgTo_length]; exact hi)
    constructor
    · intro hne
      rw [if_neg hne] at hget
      exact hget
    · intro heq
      rw [if_pos heq] at hget
      exact hget
  · rw [hchats, totalMsgs_appendMsgTo]
  · intro hno
    rw [hchats]
    exact appendMsgTo_of_not_mem _ _ _ hno

/-- C2: every store operation (session creation, selection, typing, model
choice, file picking, attachment removal, the synchronous send prefix,
and both reply-delivery outcomes) preserves each existing session's
`id`, `index`, `title`, `modelKey` and `modelLabel`, and only ever
appends to its message log: the old log is a prefix of the new one, so no
message is removed, reordered, or edited in place. -/
theorem c2_every_op_preserves_sessions (s : AppState) (a : Action) :
    storePreserved s.chats (step s a).chats := by
  cases a with
  | create newId =>
    by_cases h : 5 ≤ s.chats.length
    · have : (step s (Action.create newId)).chats = s.chats := by
        simp only [step, createChat, if_pos h]
      rw [this]
      exact storePreserved_refl _
    · have : (step s (Action.create newId)).chats = s.chats ++
          [{ id := newId, index := s.chats.length + 1,
             title := "Chat " ++ toString (s.chats.length + 1),
             modelKey := s.selectedModelKey,
             modelLabel := getModelLabel s.selectedModelKey, messages := [] }] := by
        simp only [step, createChat, if_neg h]
      rw [this]
      exact storePreserved_append _ _
  | select cid => exact storePreserved_refl _
  | typeText t => exact storePreserved_refl _
  | chooseModel k => exact storePreserved_refl _
  | pickFile f =>
    have : (step s (Action.pickFile f)).chats = s.chats := onPickFile_chats s f
    rw [this]
    exact storePreserved_refl _
  | removeAttach => exact storePreserved_refl _
  | send =>
    cases h : (handleSend s).2 with
    | none =>
      have := (handleSend_noop s h).1
      simp only [step]
      rw [this]
      exact storePreserved_refl _
    | some p =>
      obtain ⟨chat, _, _, _, _, _, hstate⟩ := handleSend_issued s p.1 p.2 (by rw [h])
      simp only [step]
      rw [hstate]
      exact storePreserved_appendMsgTo _ _ _
  | resolveOk snap reply =>
    have : (step s (Action.resolveOk snap reply)).chats =
        appendMsgTo s.chats snap.chatIdAtSend
          { role := .bot, content := reply, modelLabel := some snap.modelLabelAtSend } := rfl
    rw [this]
    exact storePreserved_appendMsgTo _ _ _
  | resolveErr snap msg => exact storePreserved_refl _

/-- C3: `createChat` fails with the limit error, creating nothing and
touching no state beyond the error slot, exactly when 5 sessions already
exist (within the invariant that at most 5 ever do); on success it
appends one new session with ordinal `count+1`, title `"Chat " ++ that
ordinal`, an empty log, the currently selected model key and its label
bound to it, makes it active, and clears the pending composer attachment
(and the composer text). -/
theorem c3_createChat_cap_and_success (s : AppState) (newId : String) :
    (s.chats.length ≤ 5 →
      (((createChat s newId).error = some limitMsg ∧ (createChat s newId).chats = s.chats) ↔
        s.chats.length = 5)) ∧
    (5 ≤ s.chats.length → createChat s newId = { s with error := some limitMsg }) ∧
    (s.chats.length < 5 →
      createChat s newId =
        { s with
          error := none
          chats := s.chats ++
            [{ id := newId, index := s.chats.length + 1,
               title := "Chat " ++ toString (s.chats.length + 1),
               modelKey := s.selectedModelKey,
               modelLabel := getModelLabel s.selectedModelKey, messages := [] }]
          activeChatId := some newId
          input := ""
          imageAttachment := none }) := by
  have hfail : 5 ≤ s.chats.length → createChat s newId = { s with error := some limitMsg } := by
    intro h
    simp only [createChat, if_pos h]
  have hok : s.chats.length < 5 →
      createChat s newId =
        { s with
          error := none
          chats := s.chats ++
            [{ id := newId, index := s.chats.length + 1,
               title := "Chat " ++ toString (s.chats.length + 1),
               modelKey := s.selectedModelKey,
               modelLabel := getModelLabel s.selectedModelKey, messages := [] }]
          activeChatId := some newId
          input := ""
          imageAttachment := none } := by
    intro h
    simp only [createChat, if_neg (by omega : ¬ 5 ≤ s.chats.length)]
  refine ⟨?_, hfail, hok⟩
  intro h5
  constructor
  · rintro ⟨herr, hchats⟩
    by_contra hne
    have hlt : s.chats.length < 5 := by omega
    rw [hok hlt] at hchats
    simp only at hchats
    have : s.chats.length = s.chats.length + 1 := by
      conv_lhs => rw [← hchats]
      simp
    omega
  · intro heq
    rw [hfail (by omega)]
    exact ⟨rfl, rfl⟩

/-- C4: `handleSend` checks its preconditions in order with short-circuit:
whitespace-only text is a silent no-op (the state, error slot included, is
untouched); a send already in flight is a silent no-op; with text and no
in-flight send but no active session, only the no-active-session error is
set; with an attachment on a model lacking image support, only the
capability error is set.  In every such case the returned request is
`none` (nothing is issued) and the state equations show no session's log
is touched. -/
theorem c4_precondition_order (s : AppState) :
    (jsTrim s.input = "" → handleSend s = (s, none)) ∧
    (s.isSending = true → handleSend s = (s, none)) ∧
    (jsTrim s.input ≠ "" → s.isSending = false → activeChat s = none →
      handleSend s = ({ s with error := some noActiveMsg }, none)) ∧
    (∀ chat, jsTrim s.input ≠ "" → s.isSending = false → activeChat s = some chat →
      s.imageAttachment.isSome = true → MODEL_SUPPORTS_IMAGE chat.modelKey = false →
      handleSend s = ({ s with error := some capabilityMsg }, none)) :=
  ⟨fun h => handleSend_eq_silent s (Or.inl h),
   fun h => handleSend_eq_silent s (Or.inr h),
   fun h1 h2 h3 => handleSend_eq_noActive s h1 h2 h3,
   fun chat h1 h2 h3 h4 h5 => handleSend_eq_capability s chat h1 h2 h3 h4 h5⟩

/-- C5: when the backend call fails, no bot message is appended anywhere
(the whole session list is untouched, so the optimistic user message is
still in place), the single error slot is overwritten with the failure
message, and the in-flight flag is cleared; the flag is cleared on the
success outcome too, returning the controller to idle either way. -/
theorem c5_failure_no_append_flag_cleared (s : AppState) (snap : SendSnapshot)
    (msg reply : String) :
    (handleSendResolve s snap (Except.error msg)).chats = s.chats ∧
    (handleSendResolve s snap (Except.error msg)).error = some msg ∧
    (handleSendResolve s snap (Except.error msg)).isSending = false ∧
    (handleSendResolve s snap (Except.ok reply)).isSending = false :=
  ⟨rfl, rfl, rfl, rfl⟩

/-- C6: building an attachment from a picked file fails with the
not-an-image error when the declared MIME type does not start with
`"image/"`, and with the too-large error when (the type is an image type
and) the byte size strictly exceeds the 5 MiB ceiling; both rejections
change only the error slot, so the pending composer attachment persists;
on success the freshly built attachment (name, MIME type, base64 payload
extracted from the data URL, preview data URL, byte size) replaces
whatever was pending before. -/
theorem c6_attachment_validation (s : AppState) (f : PickedFile) :
    (strStartsWith f.type "image/" = false →
      onPickFile s (some f) = { s with error := some notImageMsg }) ∧
    (strStartsWith f.type "image/" = true → MAX_IMAGE_BYTES < f.size →
      onPickFile s (some f) = { s with error := some tooLargeMsg }) ∧
    (strStartsWith f.type "image/" = true → f.size ≤ MAX_IMAGE_BYTES →
      onPickFile s (some f) =
        { s with
          error := none
          imageAttachment := some
            { name := f.name, mimeType := f.type,
              dataBase64 := dataUrlToBase64 f.dataUrl,
              dataUrl := f.dataUrl, sizeBytes := f.size } }) := by
  refine ⟨?_, ?_, ?_⟩
  · intro h
    simp [onPickFile, h]
  · intro h1 h2
    simp [onPickFile, h1, h2]
  · intro h1 h2
    simp [onPickFile, h1, Nat.not_lt.mpr h2]

/-- C7 counterexample: in a concrete state whose in-flight flag is set and
whose session count is below the cap, the create-chat button, the model
dropdown, the composer textarea and the attach button are all rendered
disabled — so the user can not create a session, change the dropdown,
edit the composer text, or attach an image while a send is in flight,
contrary to the claim. -/
theorem c7_counterexample_controls_locked_while_sending :
    sendingState.isSending = true ∧ sendingState.chats.length < 5 ∧
    createChatDisabled sendingState = true ∧
    modelSelectDisabled sendingState = true ∧
    textareaDisabled sendingState = true ∧
    attachDisabled sendingState = true := by
  refine ⟨rfl, by decide, by decide, rfl, by decide, by decide⟩

/-- C7 (amended): while the in-flight flag is true, every composer and
header control is disabled — creating a session, changing the model
dropdown, editing the composer text, attaching an image, and issuing a
new send — and a session tab stays enabled exactly when it is not the
active session: switching to a different session is the only user action
still available. -/
theorem c7_amended_only_tab_switch_while_sending (s : AppState) (c : Chat)
    (h : s.isSending = true) :
    createChatDisabled s = true ∧
    modelSelectDisabled s = true ∧
    attachDisabled s = true ∧
    textareaDisabled s = true ∧
    sendBtnDisabled s = true ∧
    (tabDisabled s c = false ↔ ¬ s.activeChatId = some c.id) := by
  refine ⟨by simp [createChatDisabled, h], by simp [modelSelectDisabled, h],
    by simp [attachDisabled, h], by simp [textareaDisabled, h],
    by simp [sendBtnDisabled, h], ?_⟩
  simp [tabDisabled, h]

theorem c7_amended_witness :
    createChatDisabled sendingState = true ∧
    modelSelectDisabled sendingState = true ∧
    attachDisabled sendingState = true ∧
    textareaDisabled sendingState = true ∧
    sendBtnDisabled sendingState = true ∧
    (tabDisabled sendingState chatMolmo = false ↔
      ¬ sendingState.activeChatId = some chatMolmo.id) :=
  c7_amended_only_tab_switch_while_sending sendingState chatMolmo rfl

/-- C8: the pending composer attachment becomes empty, synchronously, on
exactly the clearing events: a committed send (one that issues a
request), an explicit removal, a tab selection, and a successful session
creation.  Every other operation leaves the slot alone: a send that stops
at a precondition, reply delivery (either outcome), typing, changing the
dropdown, and a failed creation all preserve it, and picking a file
either preserves it (rejection) or installs a non-empty attachment —
never empties it. -/
theorem c8_attachment_clearing_events (s : AppState) :
    (removeAttachment s).imageAttachment = none ∧
    (∀ cid, (selectChat s cid).imageAttachment = none) ∧
    (∀ newId, s.chats.length < 5 → (createChat s newId).imageAttachment = none) ∧
    (∀ snap req, (handleSend s).2 = some (snap, req) →
      (handleSend s).1.imageAttachment = none) ∧
    ((handleSend s).2 = none →
      (handleSend s).1.imageAttachment = s.imageAttachment) ∧
    (∀ snap r, (handleSendResolve s snap r).imageAttachment = s.imageAttachment) ∧
    (∀ t, (setInput s t).imageAttachment = s.imageAttachment) ∧
    (∀ k, (setSelectedModel s k).imageAttachment = s.imageAttachment) ∧
    (∀ newId, 5 ≤ s.chats.length →
      (createChat s newId).imageAttachment = s.imageAttachment) ∧
    (∀ f, (onPickFile s f).imageAttachment = s.imageAttachment ∨
      ((onPickFile s f).imageAttachment).isSome = true) := by
  refine ⟨rfl, fun _ => rfl, ?_, ?_, ?_, fun snap r => ?_, fun _ => rfl, fun _ => rfl,
    ?_, ?_⟩
  · intro newId h
    simp [createChat, Nat.not_le.mpr h]
  · intro snap req h
    obtain ⟨chat, _, _, _, _, _, hstate⟩ := handleSend_issued s snap req h
    rw [hstate]
  · intro h
    exact (handleSend_noop s h).2.1
  · cases r <;> rfl
  · intro newId h
    simp [createChat, h]
  · intro f
    rcases f with _ | pf
    · exact Or.inl rfl
    · by_cases h1 : strStartsWith pf.type "image/"
      · by_cases h2 : MAX_IMAGE_BYTES < pf.size
        · exact Or.inl (by simp [onPickFile, h1, h2])
        · exact Or.inr (by simp [onPickFile, h1, h2])
      · exact Or.inl (by simp [onPickFile, h1])

/-- C9: whenever `handleSend` issues its (single) request, the body is
`{ message := the trimmed text, model := the snapshotted session's bound
model key }` — in particular it differs from the dropdown selection
whenever the session's key does — with an `image` payload obtained from
the pending attachment, present if and only if an attachment was
committed with this send, and the snapshot carries that same
attachment. -/
theorem c9_request_body_from_snapshot (s : AppState) (snap : SendSnapshot)
    (req : RequestBody) (h : (handleSend s).2 = some (snap, req)) :
    req.message = jsTrim s.input ∧
    (∃ chat, activeChat s = some chat ∧ req.model = chat.modelKey ∧
      snap.chatIdAtSend = chat.id ∧ snap.modelKeyAtSend = chat.modelKey ∧
      snap.modelLabelAtSend = chat.modelLabel ∧
      (chat.modelKey ≠ s.selectedModelKey → req.model ≠ s.selectedModelKey)) ∧
    req.image = s.imageAttachment.map
      (fun a => { mime_type := a.mimeType, data_base64 := a.dataBase64 }) ∧
    (req.image.isSome = true ↔ s.imageAttachment.isSome = true) ∧
    snap.imageAtSend = s.imageAttachment := by
  obtain ⟨chat, hchat, _, _, hsnap, hreq, _⟩ := handleSend_issued s snap req h
  subst hsnap
  subst hreq
  refine ⟨rfl, ⟨chat, hchat, rfl, rfl, rfl, rfl, fun hne => hne⟩, rfl, ?_, rfl⟩
  cases s.imageAttachment <;> simp

theorem c9_witness :
    reqEx.message = jsTrim twoChatState.input ∧
    snapEx.imageAtSend = twoChatState.imageAttachment :=
  ⟨(c9_request_body_from_snapshot twoChatState snapEx reqEx (by decide)).1,
   (c9_request_body_from_snapshot twoChatState snapEx reqEx (by decide)).2.2.2.2⟩

/-- C10: whenever `handleSend` issues a request, the text of the
optimistic user message appended to the snapshotted session and the
`message` field of the request body are both the composer input with
surrounding whitespace trimmed — so they are equal to each other, and the
raw untrimmed input is neither stored nor transmitted. -/
theorem c10_trimmed_text_stored_and_sent (s : AppState) (snap : SendSnapshot)
    (req : RequestBody) (h : (handleSend s).2 = some (snap, req)) :
    req.message = jsTrim s.input ∧
    ∀ i, ∀ hi : i < s.chats.length,
      (s.chats.get ⟨i, hi⟩).id = snap.chatIdAtSend →
      ∃ m : Msg, (handleSend s).1.chats[i]? =
          some { s.chats.get ⟨i, hi⟩ with
                 messages := (s.chats.get ⟨i, hi⟩).messages ++ [m] } ∧
        m.role = .user ∧ m.content = jsTrim s.input := by
  obtain ⟨chat, hchat, _, _, hsnap, hreq, hstate⟩ := handleSend_issued s snap req h
  refine ⟨by rw [hreq], ?_⟩
  intro i hi hid
  refine ⟨{ role := .user, content := jsTrim s.input,
            imageDataUrl := s.imageAttachment.map ImageAttachment.dataUrl,
            imageAlt := s.imageAttachment.map ImageAttachment.name }, ?_, rfl, rfl⟩
  have hchats : (handleSend s).1.chats = appendMsgTo s.chats chat.id
      { role := .user, content := jsTrim s.input,
        imageDataUrl := s.imageAttachment.map ImageAttachment.dataUrl,
        imageAlt := s.imageAttachment.map ImageAttachment.name } := by rw [hstate]
  rw [hsnap] at hid
  simp only [List.get_eq_getElem] at hid
  rw [hchats]
  simp only [appendMsgTo, List.getElem?_map, List.getElem?_eq_getElem hi,
    Option.map_some', List.get_eq_getElem]
  rw [if_pos hid]

theorem c10_witness :
    ∃ m : Msg, (handleSend twoChatState).1.chats[1]? =
        some { twoChatState.chats.get ⟨1, by decide⟩ with
               messages := (twoChatState.chats.get ⟨1, by decide⟩).messages ++ [m] } ∧
      m.role = .user ∧ m.content = jsTrim twoChatState.input :=
  (c10_trimmed_text_stored_and_sent twoChatState snapEx reqEx (by decide)).2 1
    (by decide) (by decide)

end OpenRouterApp
